import Mathlib

/-!
Verification of the github-repo-qualifier scan-and-score pipeline.

Strings from the TypeScript source are modelled as `List Char`.  JavaScript
`String.prototype.toLowerCase` is modelled by mapping `Char.toLower` (the
inputs of interest are ASCII).  JavaScript `String.prototype.includes` and
`String.prototype.startsWith` are modelled by the executable scanners
`lcontains` and `lstartsWith` below.
-/

/-- JS `String.prototype.startsWith(needle)`: needle first, haystack second. -/
def lstartsWith : List Char → List Char → Bool
  | [], _ => true
  | _ :: _, [] => false
  | a :: as, b :: bs => a == b && lstartsWith as bs

/-- JS `String.prototype.includes(needle)`: substring containment. -/
def lcontains (needle : List Char) : List Char → Bool
  | [] => lstartsWith needle []
  | c :: t => lstartsWith needle (c :: t) || lcontains needle t

/-- JS `String.prototype.toLowerCase` (ASCII range). -/
def toLowerList (l : List Char) : List Char := l.map Char.toLower

/-- Tree entry blob object: `object?: { text?: string }` in the GraphQL shape. -/
structure BlobObject where
  text : Option (List Char)
deriving DecidableEq

/-- One root tree entry: `{ name, type, object }` (type is "blob" or "tree"). -/
structure TreeEntry where
  name : List Char
  type : List Char
  object : Option BlobObject
deriving DecidableEq

/-- `object: { entries: [...] } | null` on a repository node. -/
structure TreeObject where
  entries : List TreeEntry
deriving DecidableEq

/-- `primaryLanguage: { name } | null`. -/
structure PrimaryLanguage where
  name : List Char
deriving DecidableEq

/-- `GitHubRepositoryData` from the server schema: the normalized repository
record handed to the scorer. -/
structure GitHubRepositoryData where
  name : List Char
  description : Option (List Char)
  url : List Char
  isPrivate : Bool
  primaryLanguage : Option PrimaryLanguage
  stargazerCount : Int
  forkCount : Int
  object : Option TreeObject
deriving DecidableEq

/-- The seven README sub-scores plus their sum, as in `RepositoryQualityScore`. -/
structure ReadmeContentScore where
  quickPresentation : Nat
  badges : Nat
  installationSection : Nat
  usageSection : Nat
  goalSection : Nat
  roadmapSection : Nat
  licenceSection : Nat
  total : Nat
deriving DecidableEq

/-- `RepositoryQualityScore` from the server schema. -/
structure RepositoryQualityScore where
  repositoryName : Nat
  readmeExists : Nat
  readmeContent : ReadmeContentScore
  licenseFile : Nat
  totalScore : Nat
deriving DecidableEq

/-- The bounds declared by `repositoryQualityScoreSchema` (part_005 lines
73-88): every component is bounded above by its documented maximum, with
`readmeContent.total` at most 50 and `totalScore` at most 100.  Lower bounds
are automatic over `Nat`. -/
def scoreWithinSchemaBounds (q : RepositoryQualityScore) : Bool :=
  decide (q.repositoryName ≤ 20) && decide (q.readmeExists ≤ 10) &&
  decide (q.readmeContent.quickPresentation ≤ 10) && decide (q.readmeContent.badges ≤ 10) &&
  decide (q.readmeContent.installationSection ≤ 8) && decide (q.readmeContent.usageSection ≤ 8) &&
  decide (q.readmeContent.goalSection ≤ 7) && decide (q.readmeContent.roadmapSection ≤ 7) &&
  decide (q.readmeContent.licenceSection ≤ 10) && decide (q.readmeContent.total ≤ 50) &&
  decide (q.licenseFile ≤ 20) && decide (q.totalScore ≤ 100)

/-- All-zero README content score (the default object in the scan handler). -/
def zeroReadme : ReadmeContentScore :=
  ⟨0, 0, 0, 0, 0, 0, 0, 0⟩

namespace Scan
/-!
The scorer inlined in the scan handler (src/unnamed/part_003, lines 141-303):
`analyzeRepositoryQuality`, `calculateQualityScore`,
`calculateRepositoryNameScore` and `analyzeReadmeContent`.
-/

/-- `/^\d+$/` -/
def isAllDigits (l : List Char) : Bool := !l.isEmpty && l.all (·.isDigit)

/-- `/^[a-zA-Z]$/` -/
def isSingleLetter : List Char → Bool
  | [c] => c.isAlpha
  | _ => false

/-- `const defaultNames = ['hello-world', 'test', 'my-project', 'untitled']` -/
def defaultNames : List (List Char) :=
  [("hello-world").toList, ("test").toList, ("my-project").toList, ("untitled").toList]

/-- part_003 lines 210-236: graded name scoring, four 5-point criteria,
capped with `Math.min(score, 20)`. -/
def calculateRepositoryNameScore (name : List Char) : Nat :=
  let s1 := if name.length > 2 ∧ isAllDigits name = false ∧ isSingleLetter name = false
            then 5 else 0
  let s2 := if lcontains [Char.ofNat 45] name = true ∨ lcontains [Char.ofNat 95] name = true
            then 5 else 0
  let s3 := if name.length ≥ 5 ∧ name.length ≤ 50 then 5 else 0
  let s4 := if defaultNames.contains (toLowerList name) = false then 5 else 0
  min (s1 + s2 + s3 + s4) 20

/-- part_003 lines 238-303: README content analysis by whole-body substring
search; `quickPresentation` needs length > 100 and a first line longer than
10 characters (`content.split` at the newline, first element). -/
def analyzeReadmeContent (content : List Char) : ReadmeContentScore :=
  let lowerContent := toLowerList content
  let firstLine := content.takeWhile (· ≠ '\n')
  let quickPresentation := if content.length > 100 ∧ firstLine.length > 10 then 10 else 0
  let badges := if lcontains (("![").toList) content = true ∨
                   lcontains (("https://img.shields.io").toList) content = true then 10 else 0
  let installationSection := if lcontains (("install").toList) lowerContent = true ∨
                                lcontains (("setup").toList) lowerContent = true ∨
                                lcontains (("getting started").toList) lowerContent = true
                             then 8 else 0
  let usageSection := if lcontains (("usage").toList) lowerContent = true ∨
                         lcontains (("example").toList) lowerContent = true ∨
                         lcontains (("how to use").toList) lowerContent = true
                      then 8 else 0
  let goalSection := if lcontains (("goal").toList) lowerContent = true ∨
                        lcontains (("purpose").toList) lowerContent = true ∨
                        lcontains (("about").toList) lowerContent = true ∨
                        lcontains (("description").toList) lowerContent = true
                     then 7 else 0
  let roadmapSection := if lcontains (("roadmap").toList) lowerContent = true ∨
                           lcontains (("todo").toList) lowerContent = true ∨
                           lcontains (("future").toList) lowerContent = true
                        then 7 else 0
  let licenceSection := if lcontains (("license").toList) lowerContent = true ∨
                           lcontains (("licence").toList) lowerContent = true
                        then 10 else 0
  let total := quickPresentation + badges + installationSection + usageSection +
               goalSection + roadmapSection + licenceSection
  ⟨quickPresentation, badges, installationSection, usageSection,
   goalSection, roadmapSection, licenceSection, total⟩

/-- part_003 lines 165-208: the quality score.  README lookup is by
lower-cased name "readme.md" or "readme" (no type check); LICENSE lookup is by
lower-cased name starting with "license" or "licence"; README content is
analyzed only when `readmeFile?.object?.text` is truthy (non-empty). -/
def calculateQualityScore (repo : GitHubRepositoryData) : RepositoryQualityScore :=
  let repositoryNameScore := calculateRepositoryNameScore repo.name
  let files := (repo.object.map TreeObject.entries).getD []
  let readmeFile := files.find? (fun file =>
    toLowerList file.name == ("readme.md").toList || toLowerList file.name == ("readme").toList)
  let licenseFile := files.find? (fun file =>
    lstartsWith (("license").toList) (toLowerList file.name) ||
    lstartsWith (("licence").toList) (toLowerList file.name))
  let readmeExists := if readmeFile.isSome then 10 else 0
  let readmeContent := match (readmeFile.bind TreeEntry.object).bind BlobObject.text with
    | some t => if t ≠ [] then analyzeReadmeContent t else zeroReadme
    | none => zeroReadme
  let licenseFileScore := if licenseFile.isSome then 20 else 0
  let totalScore := repositoryNameScore + readmeExists + readmeContent.total + licenseFileScore
  ⟨repositoryNameScore, readmeExists, readmeContent, licenseFileScore, totalScore⟩

/-- The record `analyzeRepositoryQuality` builds around the score
(part_003 lines 141-163). -/
structure AnalyzedRepository where
  name : List Char
  description : Option (List Char)
  url : List Char
  isPrivate : Bool
  language : Option (List Char)
  stars : Int
  forks : Int
  qualityScore : RepositoryQualityScore
deriving DecidableEq

/-- part_003 lines 141-163: projection plus scoring.  `language` is
`repo.primaryLanguage?.name || null`: an empty language name is falsy and
collapses to null. -/
def analyzeRepositoryQuality (repo : GitHubRepositoryData) : AnalyzedRepository :=
  { name := repo.name
    description := repo.description
    url := repo.url
    isPrivate := repo.isPrivate
    language := match repo.primaryLanguage with
      | some pl => if pl.name = [] then none else some pl.name
      | none => none
    stars := repo.stargazerCount
    forks := repo.forkCount
    qualityScore := calculateQualityScore repo }

end Scan

namespace Quality
/-!
The `calculateRepositoryQuality` handler (the quality-calculation
implementation stored after the document separator in
src/server/src/handlers/auth_signup.ts, lines 110-207; the file
src/server/src/tests/calculate_repository_quality.test.ts tests it).
-/

/-- `const testWords = ['test', 'boilerplate', 'starter']` -/
def testWords : List (List Char) :=
  [("test").toList, ("boilerplate").toList, ("starter").toList]

/-- `analyzeRepositoryName`: 0 when the lower-cased name contains one of the
test words, 20 otherwise. -/
def analyzeRepositoryName (name : List Char) : Nat :=
  let lowerName := toLowerList name
  if testWords.any (fun word => lcontains word lowerName) then 0 else 20

/-- `findReadmeFile`: first entry whose lower-cased name is exactly
"readme.md" and whose type is "blob". -/
def findReadmeFile (entries : List TreeEntry) : Option TreeEntry :=
  entries.find? (fun entry =>
    toLowerList entry.name == ("readme.md").toList && entry.type == ("blob").toList)

/-- `findLicenseFile`: first blob-type entry whose lower-cased name is
exactly "license" or "license.md". -/
def findLicenseFile (entries : List TreeEntry) : Option TreeEntry :=
  entries.find? (fun entry =>
    (toLowerList entry.name == ("license").toList ||
     toLowerList entry.name == ("license.md").toList) && entry.type == ("blob").toList)

/-- JS `.` in a regex without the s flag: any char except a line terminator
(the inputs of interest contain none of the astral terminators). -/
def jsDot (c : Char) : Bool := c ≠ '\n' && c ≠ '\r'

/-- JS `\s` (ASCII part; the inputs of interest are ASCII). -/
def jsSpace (c : Char) : Bool :=
  c = ' ' || c = '\t' || c = '\n' || c = '\r' || c = Char.ofNat 11 || c = Char.ofNat 12

/-- Backtracking match of `.*SEC` against a suffix: either SEC starts here or
one more non-newline char is consumed. -/
def matchDotStar (sec : List Char) : List Char → Bool
  | [] => lstartsWith sec []
  | c :: t => lstartsWith sec (c :: t) || (jsDot c && matchDotStar sec t)

/-- Backtracking match of `\s*.*SEC` against a suffix. -/
def matchSpaceStar (sec : List Char) : List Char → Bool
  | [] => matchDotStar sec []
  | c :: t => matchDotStar sec (c :: t) || (jsSpace c && matchSpaceStar sec t)

/-- Backtracking match of `#*\s*.*SEC` against a suffix. -/
def matchHashStar (sec : List Char) : List Char → Bool
  | [] => matchSpaceStar sec []
  | c :: t => matchSpaceStar sec (c :: t) || (c = '#' && matchHashStar sec t)

/-- `hasSectionHeading`: `new RegExp("#+\\s*.*" + sectionName, "i").test(content)`.
The caller always passes already lower-cased content and a lower-case section
name, so the i flag is inert.  `.test` succeeds iff the pattern matches at
some position: a literal '#', then optionally more '#'s, then optional
whitespace, then a run of non-newline characters, then the section name. -/
def hasSectionHeading (content : List Char) (sectionName : List Char) : Bool :=
  match content with
  | [] => false
  | c :: t => (c = '#' && matchHashStar sectionName t) || hasSectionHeading t sectionName

/-- Backtracking match of `.*?\)` against a suffix (lazy vs greedy is
irrelevant for `.test`). -/
def matchCloseParen : List Char → Bool
  | [] => false
  | c :: t => c = ')' || (jsDot c && matchCloseParen t)

/-- Backtracking match of `.*?\]\(.*?\)` against a suffix. -/
def matchBracketThenParen : List Char → Bool
  | [] => false
  | c :: t =>
    (c = ']' && (match t with
      | c2 :: t2 => c2 = '(' && matchCloseParen t2
      | [] => false)) ||
    (jsDot c && matchBracketThenParen t)

/-- `const badgeRegex = /!\[.*?\]\(.*?\)/; badgeRegex.test(content)`. -/
def badgeTest : List Char → Bool
  | [] => false
  | c :: t =>
    (c = '!' && (match t with
      | c2 :: t2 => c2 = '[' && matchBracketThenParen t2
      | [] => false)) ||
    badgeTest t

/-- `analyzeReadmeContent` of the quality handler: length > 50 for
`quickPresentation`, the badge regex, and heading-based section detection
("licen" matches both license and licence spellings). -/
def analyzeReadmeContent (content : List Char) : ReadmeContentScore :=
  let lowerContent := toLowerList content
  let quickPresentation := if content.length > 50 then 10 else 0
  let badges := if badgeTest content then 10 else 0
  let installationSection := if hasSectionHeading lowerContent (("installation").toList) then 8 else 0
  let usageSection := if hasSectionHeading lowerContent (("usage").toList) then 8 else 0
  let goalSection := if hasSectionHeading lowerContent (("goal").toList) then 7 else 0
  let roadmapSection := if hasSectionHeading lowerContent (("roadmap").toList) then 7 else 0
  let licenceSection := if hasSectionHeading lowerContent (("licen").toList) then 10 else 0
  let total := quickPresentation + badges + installationSection + usageSection +
               goalSection + roadmapSection + licenceSection
  ⟨quickPresentation, badges, installationSection, usageSection,
   goalSection, roadmapSection, licenceSection, total⟩

/-- `calculateRepositoryQuality`: README content falls back to the empty
string (`readmeFile?.object?.text || ""`). -/
def calculateRepositoryQuality (repoData : GitHubRepositoryData) : RepositoryQualityScore :=
  let repositoryNameScore := analyzeRepositoryName repoData.name
  let entries := (repoData.object.map TreeObject.entries).getD []
  let readmeFile := findReadmeFile entries
  let readmeExists := if readmeFile.isSome then 10 else 0
  let readmeContent := analyzeReadmeContent (((readmeFile.bind TreeEntry.object).bind BlobObject.text).getD [])
  let licenseFile := if (findLicenseFile entries).isSome then 20 else 0
  let totalScore := repositoryNameScore + readmeExists + readmeContent.total + licenseFile
  ⟨repositoryNameScore, readmeExists, readmeContent, licenseFile, totalScore⟩

end Quality

namespace Fetch
/-!
The paginating fetcher `fetchGitHubRepositories`
(src/server/src/handlers/fetch_github_repositories.ts, lines 59-140).
The network is modelled as an oracle list of responses consumed one per
request, in request order; the loop is the `while (hasNextPage)` loop.
Each repository node is pushed field by field (the eight fields of
`GitHubRepositoryData`), which on the model is the identity.
-/

/-- `pageInfo { hasNextPage, endCursor }` -/
structure PageInfo where
  hasNextPage : Bool
  endCursor : Option (List Char)
deriving DecidableEq

/-- `data.user.repositories`: page info plus the nodes of the page. -/
structure RepositoryConnection where
  pageInfo : PageInfo
  nodes : List GitHubRepositoryData
deriving DecidableEq

/-- The JSON envelope: `data?.user?.repositories` (absent `data` and
`data.user: null` both collapse to `none`) and the `errors` array, carried
as its list of messages (`result.errors` is truthy whenever present). -/
structure GraphQLBody where
  user : Option RepositoryConnection
  errors : Option (List (List Char))
deriving DecidableEq

/-- One HTTP response: status, statusText and the parsed JSON body
(the body is only consulted when the status is ok). -/
structure FetchResponse where
  status : Nat
  statusText : List Char
  body : GraphQLBody
deriving DecidableEq

/-- The distinguishable failures the fetcher throws. -/
inductive FetchError
  | authenticationFailed
  | rateLimited
  | requestFailed (status : Nat) (statusText : List Char)
  | apiErrors (messages : List (List Char))
  | userNotFound (username : List Char)
deriving DecidableEq

/-- `array.join(", ")` over the GraphQL error messages. -/
def joinMessages : List (List Char) → List Char
  | [] => []
  | [m] => m
  | m :: m2 :: rest => m ++ (", ").toList ++ joinMessages (m2 :: rest)

/-- The literal `Error` message of each failure, as thrown by the source
(the status number rendered in decimal; `Char.ofNat 39` is the single
quote around the user name). -/
def errorMessage : FetchError → List Char
  | .authenticationFailed => ("GitHub authentication failed. Invalid or expired token.").toList
  | .rateLimited =>
      ("GitHub API rate limit exceeded. Please try again later or provide a Personal Access Token.").toList
  | .requestFailed status statusText =>
      ("GitHub API request failed: ").toList ++ Nat.toDigits 10 status ++ [' '] ++ statusText
  | .apiErrors messages => ("GitHub GraphQL API errors: ").toList ++ joinMessages messages
  | .userNotFound username =>
      ("GitHub user ").toList ++ [Char.ofNat 39] ++ username ++
        ([Char.ofNat 39] ++ (" not found").toList)

/-- Outcome of a fetch run.  `requestCursors` records, in order, the cursor
variable sent with each request; its length is the number of requests
issued.  `outOfResponses` marks an oracle exhausted while the loop still
wanted a page. -/
inductive FetchOutcome
  | success (repositories : List GitHubRepositoryData)
      (requestCursors : List (Option (List Char)))
  | failure (error : FetchError) (requestCursors : List (Option (List Char)))
  | outOfResponses (requestCursors : List (Option (List Char)))
deriving DecidableEq

/-- The body of the `while (hasNextPage)` loop.  `response.ok` is a status in
[200, 300); a non-ok 401 throws the authentication error, a non-ok 403 the
rate-limit error, any other non-ok status the generic request failure; an ok
body with an `errors` array throws the API-errors failure; an ok body whose
`data?.user` is missing throws the not-found failure; otherwise the page
nodes are appended and the loop continues with the page cursor exactly when
`hasNextPage` holds (the 100ms delay has no observable effect here). -/
def fetchLoop (username : List Char) :
    List FetchResponse → Option (List Char) → List GitHubRepositoryData →
    List (Option (List Char)) → FetchOutcome
  | [], _, _, sent => .outOfResponses sent
  | r :: rest, cursor, acc, sent =>
    if ¬ (200 ≤ r.status ∧ r.status < 300) then
      if r.status = 401 then .failure .authenticationFailed (sent ++ [cursor])
      else if r.status = 403 then .failure .rateLimited (sent ++ [cursor])
      else .failure (.requestFailed r.status r.statusText) (sent ++ [cursor])
    else
      match r.body.errors with
      | some es => .failure (.apiErrors es) (sent ++ [cursor])
      | none =>
        match r.body.user with
        | none => .failure (.userNotFound username) (sent ++ [cursor])
        | some u =>
          if u.pageInfo.hasNextPage then
            fetchLoop username rest u.pageInfo.endCursor (acc ++ u.nodes) (sent ++ [cursor])
          else
            .success (acc ++ u.nodes) (sent ++ [cursor])

/-- `fetchGitHubRepositories(username, token?)`: the cursor starts null and
the accumulators empty. -/
def fetchGitHubRepositories (username : List Char) (responses : List FetchResponse) :
    FetchOutcome :=
  fetchLoop username responses none [] []

/-- Nodes of a response, empty when `data.user` is missing. -/
def respNodes (r : FetchResponse) : List GitHubRepositoryData :=
  match r.body.user with
  | some u => u.nodes
  | none => []

/-- `hasNextPage` reported by a response. -/
def respHasNext (r : FetchResponse) : Bool :=
  match r.body.user with
  | some u => u.pageInfo.hasNextPage
  | none => false

/-- `endCursor` reported by a response. -/
def respCursor (r : FetchResponse) : Option (List Char) :=
  match r.body.user with
  | some u => u.pageInfo.endCursor
  | none => none

/-- A response the loop can consume without failing: ok status, no errors
array, a present `data.user`. -/
def respOkB (r : FetchResponse) : Bool :=
  decide (200 ≤ r.status ∧ r.status < 300) && r.body.errors.isNone && r.body.user.isSome

/-- A non-empty run of consumable pages in which every page but the last
reports a next page and the last reports none. -/
def goodPagesB : List FetchResponse → Bool
  | [] => false
  | [r] => respOkB r && !(respHasNext r)
  | r :: r2 :: rest => respOkB r && respHasNext r && goodPagesB (r2 :: rest)

/-- Concatenation of the pages of an oracle, in request order. -/
def allNodes : List FetchResponse → List GitHubRepositoryData
  | [] => []
  | r :: rest => respNodes r ++ allNodes rest

/-- The cursors the loop sends while consuming an oracle, starting from a
given cursor: each request carries the cursor reported by the previous
response. -/
def sentCursors : List FetchResponse → Option (List Char) → List (Option (List Char))
  | [], _ => []
  | r :: rest, cursor => cursor :: sentCursors rest (respCursor r)

end Fetch

namespace Orchestrate
/-!
The scan orchestrator `scanGitHubRepositories`
(src/unnamed/part_003, lines 6-57).  The database is modelled as explicit
state; the fetch step is modelled by its outcome (`Except`), since the
orchestrator only forwards the failure (`catch` logs and rethrows the same
error).  `new Date()` is modelled by a `now` parameter.
-/

/-- A `scan_sessions` row as inserted by the handler. -/
structure SessionRow where
  userId : Nat
  username : List Char
  totalRepositories : Nat
deriving DecidableEq

/-- A `scanned_repositories` row as inserted by the handler. -/
structure RepoRow where
  sessionId : Nat
  name : List Char
  description : Option (List Char)
  url : List Char
  isPrivate : Bool
  language : Option (List Char)
  stars : Int
  forks : Int
  qualityScore : RepositoryQualityScore
deriving DecidableEq

/-- Database state: persisted sessions with their assigned ids, persisted
repository rows, and the next session id the store will assign. -/
structure DB where
  sessions : List (Nat × SessionRow)
  repos : List RepoRow
  nextSessionId : Nat
deriving DecidableEq

/-- `db.insert(scanSessionsTable).values(...).returning()`: append the row,
return the assigned id. -/
def insertSession (db : DB) (row : SessionRow) : Nat × DB :=
  (db.nextSessionId,
   { sessions := db.sessions ++ [(db.nextSessionId, row)]
     repos := db.repos
     nextSessionId := db.nextSessionId + 1 })

/-- `db.insert(scannedRepositoriesTable).values(rows)`. -/
def insertRepos (db : DB) (rows : List RepoRow) : DB :=
  { sessions := db.sessions, repos := db.repos ++ rows, nextSessionId := db.nextSessionId }

/-- `GitHubScanInput`. -/
structure GitHubScanInput where
  username : List Char
  personalAccessToken : Option (List Char)
deriving DecidableEq

/-- One repository of the returned scan result (`id: 0` is hard-coded by the
handler; `scannedAt` is the `new Date()` instant). -/
structure ScannedRepository where
  id : Nat
  name : List Char
  description : Option (List Char)
  url : List Char
  isPrivate : Bool
  language : Option (List Char)
  stars : Int
  forks : Int
  qualityScore : RepositoryQualityScore
  scannedAt : Nat
deriving DecidableEq

/-- `GitHubScanResult`. -/
structure GitHubScanResult where
  username : List Char
  totalRepositories : Nat
  repositories : List ScannedRepository
  scannedAt : Nat
deriving DecidableEq

/-- part_003 lines 6-57.  On a fetch failure the error is rethrown unchanged
and the database is untouched; on success every repository is analyzed, one
session row is inserted (with the repository count), the per-repository rows
are inserted only when the list is non-empty, and the result echoes the
analyzed repositories with `id: 0`. -/
def scanGitHubRepositories {ε : Type} (input : GitHubScanInput) (userId : Nat)
    (fetched : Except ε (List GitHubRepositoryData)) (db : DB) (now : Nat) :
    Except ε GitHubScanResult × DB :=
  match fetched with
  | .error e => (.error e, db)
  | .ok repositories =>
    let analyzedRepositories := repositories.map Scan.analyzeRepositoryQuality
    let (sessionId, db1) := insertSession db
      { userId := userId, username := input.username,
        totalRepositories := repositories.length }
    let db2 := if analyzedRepositories.length > 0 then
        insertRepos db1 (analyzedRepositories.map (fun repo =>
          { sessionId := sessionId, name := repo.name, description := repo.description,
            url := repo.url, isPrivate := repo.isPrivate, language := repo.language,
            stars := repo.stars, forks := repo.forks, qualityScore := repo.qualityScore }))
      else db1
    (.ok { username := input.username
           totalRepositories := repositories.length
           repositories := analyzedRepositories.map (fun repo =>
             { id := 0, name := repo.name, description := repo.description,
               url := repo.url, isPrivate := repo.isPrivate, language := repo.language,
               stars := repo.stars, forks := repo.forks, qualityScore := repo.qualityScore,
               scannedAt := now })
           scannedAt := now },
     db2)

end Orchestrate

/-!
Concrete inputs used by the counterexamples and witnesses below.
-/

/-- A repository named "test-project" (no root entries). -/
def repoTestProject : GitHubRepositoryData :=
  { name := ("test-project").toList, description := none, url := ("u").toList,
    isPrivate := false, primaryLanguage := none, stargazerCount := 0, forkCount := 0,
    object := none }

/-- A full README: long first line, badge image, and a heading for each of
the five scored sections. -/
def fullReadmeText : List Char :=
  ("# Awesome Tool\n\n![build](https://img.shields.io/badge/b)\n\n## Installation\n\n## Usage\n\n## Goal\n\n## Roadmap\n\n## License\n").toList

/-- A repository with the full README and a LICENSE file. -/
def repoFullReadme : GitHubRepositoryData :=
  { name := ("awesome-tool").toList, description := none, url := ("u").toList,
    isPrivate := false, primaryLanguage := none, stargazerCount := 0, forkCount := 0,
    object := some ⟨[⟨("README.md").toList, ("blob").toList, some ⟨some fullReadmeText⟩⟩,
                     ⟨("LICENSE").toList, ("blob").toList, none⟩]⟩ }

/-- 60 characters of text: longer than 50, not longer than 100. -/
def sixtyChars : List Char := List.replicate 60 'a'

/-- README body mentioning installation and usage without any heading. -/
def bodyOnlyReadme : List Char := ("run install now and check usage.").toList

/-- A repository whose only root entry is a directory named "readme"
(not a file, no content). -/
def repoReadmeDir : GitHubRepositoryData :=
  { name := ("docs").toList, description := none, url := ("u").toList,
    isPrivate := false, primaryLanguage := none, stargazerCount := 0, forkCount := 0,
    object := some ⟨[⟨("readme").toList, ("tree").toList, none⟩]⟩ }

/-- A repository whose README.md entry exists with fetched empty content. -/
def repoEmptyReadme : GitHubRepositoryData :=
  { name := ("empty-readme").toList, description := none, url := ("u").toList,
    isPrivate := false, primaryLanguage := none, stargazerCount := 0, forkCount := 0,
    object := some ⟨[⟨("README.md").toList, ("blob").toList, some ⟨some []⟩⟩]⟩ }

/-- A repository whose README.md blob has no fetched content at all. -/
def repoUnfetchedReadme : GitHubRepositoryData :=
  { name := ("unfetched").toList, description := none, url := ("u").toList,
    isPrivate := false, primaryLanguage := none, stargazerCount := 0, forkCount := 0,
    object := some ⟨[⟨("README.md").toList, ("blob").toList, none⟩]⟩ }

/-- First page repository of the pagination witness. -/
def witRepoA : GitHubRepositoryData :=
  { name := ("repo1").toList, description := some ("First repo").toList,
    url := ("u1").toList, isPrivate := false,
    primaryLanguage := some ⟨("JavaScript").toList⟩, stargazerCount := 10, forkCount := 5,
    object := none }

/-- Second page repository of the pagination witness. -/
def witRepoB : GitHubRepositoryData :=
  { name := ("repo2").toList, description := some ("Second repo").toList,
    url := ("u2").toList, isPrivate := false,
    primaryLanguage := some ⟨("Python").toList⟩, stargazerCount := 20, forkCount := 10,
    object := none }

/-- First response of the pagination witness: one node, a next page pending. -/
def witPage1 : Fetch.FetchResponse :=
  { status := 200, statusText := ("OK").toList,
    body := { user := some { pageInfo := { hasNextPage := true,
                                           endCursor := some ("cursor1").toList },
                             nodes := [witRepoA] },
              errors := none } }

/-- Second response of the pagination witness: one node, no further page. -/
def witPage2 : Fetch.FetchResponse :=
  { status := 200, statusText := ("OK").toList,
    body := { user := some { pageInfo := { hasNextPage := false, endCursor := none },
                             nodes := [witRepoB] },
              errors := none } }

/-- Two repositories agreeing on name and root entries, differing in every
other field. -/
def detRepo1 : GitHubRepositoryData :=
  { name := ("cool-lib").toList, description := some ("a library").toList,
    url := ("urlA").toList, isPrivate := false,
    primaryLanguage := some ⟨("TypeScript").toList⟩, stargazerCount := 1, forkCount := 2,
    object := some ⟨[]⟩ }

/-- See `detRepo1`: same name and root entries, different metadata. -/
def detRepo2 : GitHubRepositoryData :=
  { name := ("cool-lib").toList, description := none,
    url := ("urlB").toList, isPrivate := true,
    primaryLanguage := none, stargazerCount := 999, forkCount := 888,
    object := some ⟨[]⟩ }

/-!
Helper lemmas about the string scanners.
-/

theorem lstartsWith_iff (n h : List Char) :
    lstartsWith n h = true ↔ ∃ t, h = n ++ t := by
  induction n generalizing h with
  | nil => simp [lstartsWith]
  | cons a as ih =>
    cases h with
    | nil => simp [lstartsWith]
    | cons b bs =>
      simp only [lstartsWith, Bool.and_eq_true, beq_iff_eq, ih, List.cons_append,
        List.cons.injEq]
      constructor
      · rintro ⟨hab, t, ht⟩
        exact ⟨t, hab.symm, ht⟩
      · rintro ⟨t, hab, ht⟩
        exact ⟨hab.symm, t, ht⟩

theorem lcontains_iff (n h : List Char) :
    lcontains n h = true ↔ ∃ s t, h = s ++ n ++ t := by
  induction h with
  | nil =>
    simp only [lcontains, lstartsWith_iff]
    constructor
    · rintro ⟨t, ht⟩
      exact ⟨[], t, ht⟩
    · rintro ⟨s, t, ht⟩
      rcases List.append_eq_nil.mp (ht.symm) with ⟨h1, h2⟩
      rcases List.append_eq_nil.mp h1 with ⟨-, h3⟩
      exact ⟨t, by simp [h3, h2]⟩
  | cons c cs ih =>
    simp only [lcontains, Bool.or_eq_true, lstartsWith_iff, ih]
    constructor
    · rintro (⟨t, ht⟩ | ⟨s, t, ht⟩)
      · exact ⟨[], t, by simp [ht]⟩
      · exact ⟨c :: s, t, by simp [ht]⟩
    · rintro ⟨s, t, ht⟩
      cases s with
      | nil => exact Or.inl ⟨t, by simpa using ht⟩
      | cons x xs =>
        right
        simp only [List.cons_append, List.cons.injEq] at ht
        exact ⟨xs, t, ht.2⟩

theorem lcontains_append_left (s : List Char) {n t : List Char}
    (h : lcontains n t = true) : lcontains n (s ++ t) = true := by
  rcases (lcontains_iff n t).mp h with ⟨a, b, hab⟩
  exact (lcontains_iff n (s ++ t)).mpr ⟨s ++ a, b, by simp [hab]⟩

theorem hasSectionHeading_no_hash (c sec : List Char)
    (h : ∀ ch ∈ c, ch ≠ '#') : Quality.hasSectionHeading c sec = false := by
  induction c with
  | nil => rfl
  | cons x xs ih =>
    have hx : x ≠ '#' := h x (List.mem_cons_self x xs)
    have hxs : ∀ ch ∈ xs, ch ≠ '#' := fun ch hm => h ch (List.mem_cons_of_mem x hm)
    simp [Quality.hasSectionHeading, hx, ih hxs]

theorem find?_isSome_iff_exists {α : Type} (p : α → Bool) (l : List α) :
    (l.find? p).isSome = true ↔ ∃ x ∈ l, p x = true := by
  simp [List.find?_isSome]

/-- C1.  For every repository record, the `totalScore` computed by each of
the two scorers in the source (the scan handler's `calculateQualityScore`
and the quality handler's `calculateRepositoryQuality`) is exactly
`repositoryName + readmeExists + readmeContent.total + licenseFile`;
it is never independently assigned. -/
theorem claim_C1_totalScore_is_sum (repo : GitHubRepositoryData) :
    (Scan.calculateQualityScore repo).totalScore =
      (Scan.calculateQualityScore repo).repositoryName +
      (Scan.calculateQualityScore repo).readmeExists +
      (Scan.calculateQualityScore repo).readmeContent.total +
      (Scan.calculateQualityScore repo).licenseFile ∧
    (Quality.calculateRepositoryQuality repo).totalScore =
      (Quality.calculateRepositoryQuality repo).repositoryName +
      (Quality.calculateRepositoryQuality repo).readmeExists +
      (Quality.calculateRepositoryQuality repo).readmeContent.total +
      (Quality.calculateRepositoryQuality repo).licenseFile :=
  ⟨rfl, rfl⟩

set_option maxRecDepth 4000 in
/-- C2.  The documented bounds are violated by the code itself: on a
repository whose README has a long first line, a badge image and all five
section headings plus a LICENSE file, the seven README sub-scores sum to
60 (not at most 50) and `totalScore` reaches 110 (not at most 100), so the
score falls outside the bounds declared by `repositoryQualityScoreSchema`.
Both scorers in the source exhibit this. -/
theorem claim_C2_bounds_violated :
    (Scan.calculateQualityScore repoFullReadme).readmeContent.total = 60 ∧
    (Scan.calculateQualityScore repoFullReadme).totalScore = 110 ∧
    scoreWithinSchemaBounds (Scan.calculateQualityScore repoFullReadme) = false ∧
    (Quality.calculateRepositoryQuality repoFullReadme).readmeContent.total = 60 ∧
    (Quality.calculateRepositoryQuality repoFullReadme).totalScore = 110 ∧
    scoreWithinSchemaBounds (Quality.calculateRepositoryQuality repoFullReadme) = false := by
  decide

/-- C3 counterexample.  The scan handler cited by the claim scores the name
"test-project" with the full 20 points through its four graded 5-point
criteria, not 0 as the claim states. -/
theorem claim_C3_counterexample :
    repoTestProject.name = ("test-project").toList ∧
    (Scan.calculateQualityScore repoTestProject).repositoryName = 20 := by
  decide

/-- C3 amended.  The all-or-nothing rule holds for the quality handler
`analyzeRepositoryName`: the component is 0 exactly when the lower-cased
name contains "test", "boilerplate" or "starter" as a substring and 20
otherwise, and "test-project" scores 0 there — while the scan handler's
`calculateRepositoryNameScore` awards graded points and gives
"test-project" 20. -/
theorem claim_C3_amended (name : List Char) :
    (Quality.analyzeRepositoryName name = 0 ∨ Quality.analyzeRepositoryName name = 20) ∧
    (Quality.analyzeRepositoryName name = 0 ↔
      (∃ s t, toLowerList name = s ++ ("test").toList ++ t) ∨
      (∃ s t, toLowerList name = s ++ ("boilerplate").toList ++ t) ∨
      (∃ s t, toLowerList name = s ++ ("starter").toList ++ t)) ∧
    Quality.analyzeRepositoryName (("test-project").toList) = 0 ∧
    Scan.calculateRepositoryNameScore (("test-project").toList) = 20 := by
  refine ⟨?_, ?_, by decide, by decide⟩
  · by_cases h : (Quality.testWords.any fun word => lcontains word (toLowerList name)) = true
    · left
      simp [Quality.analyzeRepositoryName, h]
    · right
      simp [Quality.analyzeRepositoryName, h]
  · by_cases h : (Quality.testWords.any fun word => lcontains word (toLowerList name)) = true
    · have hval : Quality.analyzeRepositoryName name = 0 := by
        simp [Quality.analyzeRepositoryName, h]
      have hdisj : (∃ s t, toLowerList name = s ++ ("test").toList ++ t) ∨
          (∃ s t, toLowerList name = s ++ ("boilerplate").toList ++ t) ∨
          (∃ s t, toLowerList name = s ++ ("starter").toList ++ t) := by
        simpa [Quality.testWords, lcontains_iff] using h
      rw [hval]
      exact iff_of_true rfl hdisj
    · have hval : Quality.analyzeRepositoryName name = 20 := by
        simp [Quality.analyzeRepositoryName, h]
      have hdisj : ¬ ((∃ s t, toLowerList name = s ++ ("test").toList ++ t) ∨
          (∃ s t, toLowerList name = s ++ ("boilerplate").toList ++ t) ∨
          (∃ s t, toLowerList name = s ++ ("starter").toList ++ t)) := by
        intro hx
        apply h
        simpa [Quality.testWords, lcontains_iff] using hx
      rw [hval]
      constructor
      · intro h20
        exact absurd h20 (by decide)
      · intro hx
        exact absurd hx hdisj

/-- C4 counterexample.  The `analyzeReadmeContent` cited by the claim
(the scan handler) gives `quickPresentation = 0` on a 60-character text even
though its length exceeds 50, because it requires length > 100 together with
a first line longer than 10 characters. -/
theorem claim_C4_counterexample :
    sixtyChars.length > 50 ∧ (Scan.analyzeReadmeContent sixtyChars).quickPresentation = 0 := by
  decide

/-- C4 amended.  The scan handler awards `quickPresentation` exactly when
the content is longer than 100 characters and its first line (the text
before the first newline) is longer than 10 characters; the quality handler
implements the claimed strictly-greater-than-50 rule. -/
theorem claim_C4_amended (content : List Char) :
    ((Scan.analyzeReadmeContent content).quickPresentation = 10 ↔
      content.length > 100 ∧ (content.takeWhile (· ≠ '\n')).length > 10) ∧
    ((Quality.analyzeReadmeContent content).quickPresentation = 10 ↔ content.length > 50) := by
  constructor
  · by_cases h : content.length > 100 ∧ (content.takeWhile (· ≠ '\n')).length > 10
    · simp [Scan.analyzeReadmeContent, h]
    · simp [Scan.analyzeReadmeContent, h]
  · by_cases h : content.length > 50
    · simp [Quality.analyzeReadmeContent, h]
    · simp [Quality.analyzeReadmeContent, h]

/-- C5 counterexample.  The `analyzeReadmeContent` cited by the claim
(the scan handler) awards both section scores on a README that contains the
keywords only in plain body text with no '#' anywhere, where the claim
demands 0. -/
theorem claim_C5_counterexample :
    (∀ ch ∈ toLowerList bodyOnlyReadme, ch ≠ '#') ∧
    (Scan.analyzeReadmeContent bodyOnlyReadme).installationSection = 8 ∧
    (Scan.analyzeReadmeContent bodyOnlyReadme).usageSection = 8 := by
  decide

/-- C5 amended.  Heading-based detection holds only for the quality handler:
there, a README whose lower-cased text contains no '#' character scores 0
for both `installationSection` and `usageSection`; the scan handler instead
awards the 8 points exactly when the keywords (install/setup/getting
started, resp. usage/example/how to use) occur anywhere in the lower-cased
body. -/
theorem claim_C5_amended :
    (∀ content : List Char, (∀ ch ∈ toLowerList content, ch ≠ '#') →
      (Quality.analyzeReadmeContent content).installationSection = 0 ∧
      (Quality.analyzeReadmeContent content).usageSection = 0) ∧
    (∀ content : List Char,
      ((Scan.analyzeReadmeContent content).installationSection = 8 ↔
        (∃ s t, toLowerList content = s ++ ("install").toList ++ t) ∨
        (∃ s t, toLowerList content = s ++ ("setup").toList ++ t) ∨
        (∃ s t, toLowerList content = s ++ ("getting started").toList ++ t)) ∧
      ((Scan.analyzeReadmeContent content).usageSection = 8 ↔
        (∃ s t, toLowerList content = s ++ ("usage").toList ++ t) ∨
        (∃ s t, toLowerList content = s ++ ("example").toList ++ t) ∨
        (∃ s t, toLowerList content = s ++ ("how to use").toList ++ t))) := by
  constructor
  · intro content h
    have h1 := hasSectionHeading_no_hash (toLowerList content) (("installation").toList) h
    have h2 := hasSectionHeading_no_hash (toLowerList content) (("usage").toList) h
    have p1 : (Quality.analyzeReadmeContent content).installationSection =
        (if Quality.hasSectionHeading (toLowerList content) (("installation").toList) = true
         then 8 else 0) := rfl
    have p2 : (Quality.analyzeReadmeContent content).usageSection =
        (if Quality.hasSectionHeading (toLowerList content) (("usage").toList) = true
         then 8 else 0) := rfl
    constructor
    · rw [p1, if_neg (by rw [Bool.not_eq_true]; exact h1)]
    · rw [p2, if_neg (by rw [Bool.not_eq_true]; exact h2)]
  · intro content
    have p1 : (Scan.analyzeReadmeContent content).installationSection =
        (if (lcontains (("install").toList) (toLowerList content) = true ∨
             lcontains (("setup").toList) (toLowerList content) = true ∨
             lcontains (("getting started").toList) (toLowerList content) = true)
         then 8 else 0) := rfl
    have p2 : (Scan.analyzeReadmeContent content).usageSection =
        (if (lcontains (("usage").toList) (toLowerList content) = true ∨
             lcontains (("example").toList) (toLowerList content) = true ∨
             lcontains (("how to use").toList) (toLowerList content) = true)
         then 8 else 0) := rfl
    constructor
    · by_cases h : (lcontains (("install").toList) (toLowerList content) = true ∨
          lcontains (("setup").toList) (toLowerList content) = true ∨
          lcontains (("getting started").toList) (toLowerList content) = true)
      · rw [p1, if_pos h]
        refine iff_of_true rfl ?_
        simpa [lcontains_iff] using h
      · rw [p1, if_neg h]
        constructor
        · intro h0
          exact absurd h0 (by decide)
        · intro hx
          exfalso
          exact h (by simpa [lcontains_iff] using hx)
    · by_cases h : (lcontains (("usage").toList) (toLowerList content) = true ∨
          lcontains (("example").toList) (toLowerList content) = true ∨
          lcontains (("how to use").toList) (toLowerList content) = true)
      · rw [p2, if_pos h]
        refine iff_of_true rfl ?_
        simpa [lcontains_iff] using h
      · rw [p2, if_neg h]
        constructor
        · intro h0
          exact absurd h0 (by decide)
        · intro hx
          exfalso
          exact h (by simpa [lcontains_iff] using hx)

/-- C5 witness: a README whose lowered text has no '#' scores 0 for both
sections in the quality handler. -/
theorem claim_C5_witness :
    (∀ ch ∈ toLowerList bodyOnlyReadme, ch ≠ '#') ∧
    ((Quality.analyzeReadmeContent bodyOnlyReadme).installationSection = 0 ∧
     (Quality.analyzeReadmeContent bodyOnlyReadme).usageSection = 0) :=
  ⟨by decide, claim_C5_amended.1 bodyOnlyReadme (by decide)⟩

/-- C6 counterexample.  The scan handler cited by the claim awards
`readmeExists = 10` for a root entry named "readme" that is a directory
(`type: "tree"`) with no fetched content, where the claim demands 0
(no file-type entry, no fetched content). -/
theorem claim_C6_counterexample :
    repoReadmeDir.object = some ⟨[⟨("readme").toList, ("tree").toList, none⟩]⟩ ∧
    (Scan.calculateQualityScore repoReadmeDir).readmeExists = 10 := by
  decide

/-- C6 amended.  In the scan handler, `readmeExists` is 10 exactly when some
root entry is lower-case-named "readme.md" or "readme" — entry type and
whether content was fetched are not consulted; in the quality handler,
exactly when some blob-type root entry is lower-case-named "readme.md" —
again regardless of whether content was fetched (a README.md blob with no
fetched text still yields 10 there).  An entry with fetched empty-string
content yields `readmeExists = 10` with `readmeContent` all zero in both. -/
theorem claim_C6_amended :
    (∀ repo : GitHubRepositoryData,
      ((Scan.calculateQualityScore repo).readmeExists = 10 ↔
        ∃ e ∈ (repo.object.map TreeObject.entries).getD [],
          toLowerList e.name = ("readme.md").toList ∨ toLowerList e.name = ("readme").toList) ∧
      ((Scan.calculateQualityScore repo).readmeExists = 10 ∨
       (Scan.calculateQualityScore repo).readmeExists = 0)) ∧
    (∀ repo : GitHubRepositoryData,
      (Quality.calculateRepositoryQuality repo).readmeExists = 10 ↔
        ∃ e ∈ (repo.object.map TreeObject.entries).getD [],
          toLowerList e.name = ("readme.md").toList ∧ e.type = ("blob").toList) ∧
    (Quality.calculateRepositoryQuality repoUnfetchedReadme).readmeExists = 10 ∧
    (Scan.calculateQualityScore repoEmptyReadme).readmeExists = 10 ∧
    (Scan.calculateQualityScore repoEmptyReadme).readmeContent = zeroReadme ∧
    (Quality.calculateRepositoryQuality repoEmptyReadme).readmeExists = 10 ∧
    (Quality.calculateRepositoryQuality repoEmptyReadme).readmeContent = zeroReadme := by
  refine ⟨?_, ?_, by decide, by decide, by decide, by decide, by decide⟩
  · intro repo
    have hproj : (Scan.calculateQualityScore repo).readmeExists =
        (if (((repo.object.map TreeObject.entries).getD []).find? (fun file =>
            toLowerList file.name == ("readme.md").toList ||
            toLowerList file.name == ("readme").toList)).isSome = true
         then 10 else 0) := rfl
    constructor
    · by_cases h : (((repo.object.map TreeObject.entries).getD []).find? (fun file =>
          toLowerList file.name == ("readme.md").toList ||
          toLowerList file.name == ("readme").toList)).isSome = true
      · rw [hproj, if_pos h]
        refine iff_of_true rfl ?_
        rcases (find?_isSome_iff_exists _ _).mp h with ⟨e, hmem, hp⟩
        refine ⟨e, hmem, ?_⟩
        rcases Bool.or_eq_true _ _ |>.mp hp with h1 | h1
        · exact Or.inl (by exact_mod_cast beq_iff_eq.mp h1)
        · exact Or.inr (by exact_mod_cast beq_iff_eq.mp h1)
      · rw [hproj, if_neg h]
        constructor
        · intro h0
          exact absurd h0 (by decide)
        · rintro ⟨e, hmem, hname⟩
          exfalso
          apply h
          refine (find?_isSome_iff_exists _ _).mpr ⟨e, hmem, ?_⟩
          rcases hname with h1 | h1
          · exact Bool.or_eq_true _ _ |>.mpr (Or.inl (beq_iff_eq.mpr h1))
          · exact Bool.or_eq_true _ _ |>.mpr (Or.inr (beq_iff_eq.mpr h1))
    · rw [hproj]
      by_cases h : (((repo.object.map TreeObject.entries).getD []).find? (fun file =>
          toLowerList file.name == ("readme.md").toList ||
          toLowerList file.name == ("readme").toList)).isSome = true
      · rw [if_pos h]; exact Or.inl rfl
      · rw [if_neg h]; exact Or.inr rfl
  · intro repo
    have hproj : (Quality.calculateRepositoryQuality repo).readmeExists =
        (if (Quality.findReadmeFile ((repo.object.map TreeObject.entries).getD [])).isSome = true
         then 10 else 0) := rfl
    by_cases h : (Quality.findReadmeFile ((repo.object.map TreeObject.entries).getD [])).isSome = true
    · rw [hproj, if_pos h]
      refine iff_of_true rfl ?_
      rcases (find?_isSome_iff_exists _ _).mp h with ⟨e, hmem, hp⟩
      refine ⟨e, hmem, ?_⟩
      rcases Bool.and_eq_true _ _ |>.mp hp with ⟨h1, h2⟩
      exact ⟨beq_iff_eq.mp h1, beq_iff_eq.mp h2⟩
    · rw [hproj, if_neg h]
      constructor
      · intro h0
        exact absurd h0 (by decide)
      · rintro ⟨e, hmem, hn, ht⟩
        exfalso
        apply h
        refine (find?_isSome_iff_exists _ _).mpr ⟨e, hmem, ?_⟩
        exact Bool.and_eq_true _ _ |>.mpr ⟨beq_iff_eq.mpr hn, beq_iff_eq.mpr ht⟩

/-- C7.  Over any oracle of consumable pages in which every page but the
last reports a next page and the last reports none, the fetcher consumes
exactly one response per request, threads the continuation cursor (the
first request carries the null cursor, each later request carries the
`endCursor` of the previous response) and returns the concatenation of all
pages in request order with within-page order preserved.  In particular a
two-page oracle produces exactly two requests and the two pages
concatenated in order. -/
theorem claim_C7_pagination (rs : List Fetch.FetchResponse)
    (h : Fetch.goodPagesB rs = true) :
    (∀ (username : List Char) (cursor : Option (List Char))
       (acc : List GitHubRepositoryData) (sent : List (Option (List Char))),
       Fetch.fetchLoop username rs cursor acc sent =
         .success (acc ++ Fetch.allNodes rs) (sent ++ Fetch.sentCursors rs cursor)) ∧
    (∀ username : List Char,
       Fetch.fetchGitHubRepositories username rs =
         .success (Fetch.allNodes rs) (Fetch.sentCursors rs none)) := by
  have main : ∀ (rs : List Fetch.FetchResponse), Fetch.goodPagesB rs = true →
      ∀ (username : List Char) (cursor : Option (List Char))
        (acc : List GitHubRepositoryData) (sent : List (Option (List Char))),
        Fetch.fetchLoop username rs cursor acc sent =
          .success (acc ++ Fetch.allNodes rs) (sent ++ Fetch.sentCursors rs cursor) := by
    intro rs
    induction rs with
    | nil => intro hg; simp [Fetch.goodPagesB] at hg
    | cons r rest ih =>
      intro hg username cursor acc sent
      cases rest with
      | nil =>
        simp only [Fetch.goodPagesB, Bool.and_eq_true, Bool.not_eq_true'] at hg
        obtain ⟨hok, hnext⟩ := hg
        simp only [Fetch.respOkB, Bool.and_eq_true, decide_eq_true_eq,
          Option.isNone_iff_eq_none, Option.isSome_iff_exists] at hok
        obtain ⟨⟨hst, herr⟩, u, hu⟩ := hok
        have hnx : u.pageInfo.hasNextPage = false := by
          simpa [Fetch.respHasNext, hu] using hnext
        simp only [Fetch.fetchLoop]
        rw [if_neg (not_not_intro hst), herr, hu]
        simp only
        rw [if_neg (by rw [Bool.not_eq_true]; exact hnx)]
        simp [Fetch.allNodes, Fetch.respNodes, Fetch.sentCursors, hu]
      | cons r2 rest2 =>
        simp only [Fetch.goodPagesB, Bool.and_eq_true] at hg
        obtain ⟨⟨hok, hnext⟩, hgood⟩ := hg
        simp only [Fetch.respOkB, Bool.and_eq_true, decide_eq_true_eq,
          Option.isNone_iff_eq_none, Option.isSome_iff_exists] at hok
        obtain ⟨⟨hst, herr⟩, u, hu⟩ := hok
        have hnx : u.pageInfo.hasNextPage = true := by
          simpa [Fetch.respHasNext, hu] using hnext
        rw [Fetch.fetchLoop]
        rw [if_neg (not_not_intro hst), herr, hu]
        simp only
        rw [if_pos hnx, ih hgood]
        have hc : Fetch.respCursor r = u.pageInfo.endCursor := by
          simp [Fetch.respCursor, hu]
        simp [Fetch.allNodes, Fetch.respNodes, Fetch.sentCursors, hu, hc,
          List.append_assoc]
  refine ⟨main rs h, ?_⟩
  intro username
  have := main rs h username none [] []
  simpa [Fetch.fetchGitHubRepositories] using this

/-- C7 witness: a concrete two-page oracle issues exactly the two requests
(null cursor, then the first page's end cursor) and returns the two pages
concatenated in order. -/
theorem claim_C7_witness :
    Fetch.goodPagesB [witPage1, witPage2] = true ∧
    Fetch.fetchGitHubRepositories (("octocat").toList) [witPage1, witPage2] =
      .success (Fetch.allNodes [witPage1, witPage2])
        (Fetch.sentCursors [witPage1, witPage2] none) ∧
    Fetch.allNodes [witPage1, witPage2] = [witRepoA, witRepoB] ∧
    Fetch.sentCursors [witPage1, witPage2] none = [none, some (("cursor1").toList)] :=
  ⟨by decide,
   (claim_C7_pagination [witPage1, witPage2] (by decide)).2 (("octocat").toList),
   by decide, by decide⟩

/-- C8.  The fetcher maps failures to distinguishable errors and never
retries: whatever responses would follow (`rest` is arbitrary and is never
consumed), a 401 response fails with the authentication error, a 403
response with the rate-limit error, a 2xx body carrying an `errors` list
with the API-errors failure reporting that list, and a 2xx body with
`data.user` null with the user-not-found failure — in each case after
exactly one request (the cursor list is `[none]`).  The authentication
message matches the "authentication failed" pattern, the 403 message the
"rate limit" pattern, and the not-found message the "not found" pattern. -/
theorem claim_C8_error_taxonomy :
    (∀ (username st : List Char) (b : Fetch.GraphQLBody) (rest : List Fetch.FetchResponse),
      Fetch.fetchLoop username ({ status := 401, statusText := st, body := b } :: rest)
          none [] [] =
        .failure .authenticationFailed [none]) ∧
    (∀ (username st : List Char) (b : Fetch.GraphQLBody) (rest : List Fetch.FetchResponse),
      Fetch.fetchLoop username ({ status := 403, statusText := st, body := b } :: rest)
          none [] [] =
        .failure .rateLimited [none]) ∧
    (∀ (username st : List Char) (es : List (List Char))
       (u : Option Fetch.RepositoryConnection) (rest : List Fetch.FetchResponse),
      Fetch.fetchLoop username
          ({ status := 200, statusText := st,
             body := { user := u, errors := some es } } :: rest) none [] [] =
        .failure (.apiErrors es) [none]) ∧
    (∀ (username st : List Char) (rest : List Fetch.FetchResponse),
      Fetch.fetchLoop username
          ({ status := 200, statusText := st,
             body := { user := none, errors := none } } :: rest) none [] [] =
        .failure (.userNotFound username) [none]) ∧
    lcontains (("authentication failed").toList)
      (Fetch.errorMessage .authenticationFailed) = true ∧
    lcontains (("rate limit").toList) (Fetch.errorMessage .rateLimited) = true ∧
    (∀ username : List Char,
      lcontains (("not found").toList) (Fetch.errorMessage (.userNotFound username)) = true) := by
  refine ⟨?_, ?_, ?_, ?_, by decide, by decide, ?_⟩
  · intro username st b rest
    rw [Fetch.fetchLoop]
    norm_num
  · intro username st b rest
    rw [Fetch.fetchLoop]
    norm_num
  · intro username st es u rest
    rw [Fetch.fetchLoop]
    norm_num
  · intro username st rest
    rw [Fetch.fetchLoop]
    norm_num
  · intro username
    have h0 : lcontains (("not found").toList) ((" not found").toList) = true := by decide
    exact lcontains_append_left _ (lcontains_append_left _ h0)

/-- C9.  If the fetch step fails, the orchestrator returns the very same
error and the database is untouched (no session row, no repository row);
if the fetch step returns an empty repository list, it still persists one
session row with `totalRepositories = 0` (repository rows unchanged) and
returns a result with an empty repository list. -/
theorem claim_C9_orchestrator (input : Orchestrate.GitHubScanInput) (userId : Nat)
    (db : Orchestrate.DB) (now : Nat) :
    (∀ (ε : Type) (e : ε),
      Orchestrate.scanGitHubRepositories input userId (.error e) db now = (.error e, db)) ∧
    (∀ ε : Type,
      (Orchestrate.scanGitHubRepositories (ε := ε) input userId (.ok []) db now).1 =
        .ok { username := input.username, totalRepositories := 0,
              repositories := [], scannedAt := now } ∧
      (Orchestrate.scanGitHubRepositories (ε := ε) input userId (.ok []) db now).2 =
        { sessions := db.sessions ++
            [(db.nextSessionId,
              { userId := userId, username := input.username, totalRepositories := 0 })],
          repos := db.repos,
          nextSessionId := db.nextSessionId + 1 }) :=
  ⟨fun _ _ => rfl, fun _ => ⟨rfl, rfl⟩⟩

/-- C10.  The scorers are pure functions of the repository name and the root
entries alone: two records agreeing on `name` and `object` (entries with
their name, type and text content) receive identical quality scores from
both scorers; description, url, isPrivate, primaryLanguage, star count and
fork count never influence any component.  Scoring the same record twice
trivially yields the same score. -/
theorem claim_C10_scorer_deterministic (r1 r2 : GitHubRepositoryData)
    (hname : r1.name = r2.name) (hobj : r1.object = r2.object) :
    Scan.calculateQualityScore r1 = Scan.calculateQualityScore r2 ∧
    Quality.calculateRepositoryQuality r1 = Quality.calculateRepositoryQuality r2 := by
  cases r1
  cases r2
  cases hname
  cases hobj
  exact ⟨rfl, rfl⟩

/-- C10 witness: two concrete records sharing name and root entries but
differing in description, url, privacy, language, stars and forks receive
identical scores. -/
theorem claim_C10_witness :
    detRepo1.name = detRepo2.name ∧ detRepo1.object = detRepo2.object ∧
    (Scan.calculateQualityScore detRepo1 = Scan.calculateQualityScore detRepo2 ∧
     Quality.calculateRepositoryQuality detRepo1 = Quality.calculateRepositoryQuality detRepo2) :=
  ⟨rfl, rfl, claim_C10_scorer_deterministic detRepo1 detRepo2 rfl rfl⟩
